import Mathlib

/-!
Verification of the conversational slot-filling engine of the loan backend
(`backend/app/routes/chat_routes.py`, with the document gate from
`backend/app/routes/loan_routes.py`).

Messages and stored strings are modelled as `List Char`.  Python string
primitives (`str.lower`, `str.strip`, `str.split`, `str.isdigit`, `int(...)`)
and the regular-expression searches used by the engine are given direct
executable definitions.  Each regex of the source is compiled by hand into a
deterministic matcher; where the Python engine could in principle backtrack,
a comment argues why the greedy run is the only viable parse, so the
deterministic matcher agrees with `re.search` / `re.fullmatch`.

Unicode caveats of the model:
* `\d`, `[0-9]`-style classes and `str.split` whitespace are modelled over
  the ASCII fragment (plus, for `str.isdigit`, the superscript digits
  U+00B9 U+00B2 U+00B3, which satisfy `str.isdigit` but are rejected by
  `int(...)` — the fragment the safety claim exercises).
* `float`/`round` arithmetic on `"<k> lakh"` amounts is modelled exactly over
  `ℚ` with round-half-even, which agrees with CPython on the integer-valued
  inputs the claims use.
-/

namespace LoanChat

/-! ## Python string primitives over `List Char` -/

/-- Whitespace for `str.strip` / `str.split` / regex `\s` (ASCII fragment):
space, tab, newline, carriage return, vertical tab, form feed. -/
def isSpaceChar (c : Char) : Bool :=
  c == ' ' || c == '\t' || c == '\n' || c == '\r' || c == Char.ofNat 11 || c == Char.ofNat 12

/-- `str.strip()`. -/
def pyStrip (cs : List Char) : List Char :=
  ((cs.dropWhile isSpaceChar).reverse.dropWhile isSpaceChar).reverse

/-- `str.lower()` (ASCII fragment, matching `Char.toLower`). -/
def pyLower (cs : List Char) : List Char := cs.map Char.toLower

/-- Helper for `pySplit`: accumulates the current word (reversed). -/
def splitAux : List Char → List Char → List (List Char)
  | [], acc => if acc.isEmpty then [] else [acc.reverse]
  | c :: cs, acc =>
    if isSpaceChar c then
      if acc.isEmpty then splitAux cs [] else acc.reverse :: splitAux cs []
    else splitAux cs (c :: acc)

/-- `str.split()` with no argument: split on whitespace runs, dropping empties. -/
def pySplit (cs : List Char) : List (List Char) := splitAux cs []

/-- Python `needle in haystack` prelude: does `hay` start with `needle`? -/
def startsWithList (needle hay : List Char) : Bool :=
  match needle, hay with
  | [], _ => true
  | _ :: _, [] => false
  | n :: ns, h :: hs => n == h && startsWithList ns hs

/-- Python substring test `needle in hay` (contiguous occurrence). -/
def containsList (needle : List Char) : List Char → Bool
  | [] => needle.isEmpty
  | c :: cs => startsWithList needle (c :: cs) || containsList needle cs

/-- Leftmost regex search: try the position matcher `f` at each start
position, earliest success wins (all patterns below need at least one
character, so the empty final position never matches). -/
def searchPos {α : Type} (f : List Char → Option α) : List Char → Option α
  | [] => none
  | c :: cs =>
    match f (c :: cs) with
    | some r => some r
    | none => searchPos f cs

/-- Regex `\d` / class `[0-9]` (ASCII decimal digits, written as the explicit
ten-character set). -/
def isDigitChar (c : Char) : Bool :=
  c == '0' || c == '1' || c == '2' || c == '3' || c == '4' ||
  c == '5' || c == '6' || c == '7' || c == '8' || c == '9'

/-- Maximal run of `\d` at the head. -/
def digitRun (cs : List Char) : List Char := cs.takeWhile isDigitChar

/-- Numeric value of a (decimal-digit) list, as `int(...)` computes it. -/
def digitsToNat (ds : List Char) : Nat :=
  ds.foldl (fun a c => a * 10 + (c.toNat - 48)) 0

/-- `str.isdigit` character test (modelled fragment: ASCII decimal digits,
which have Unicode `Numeric_Type=Decimal`, plus the superscript digits
U+00B9 U+00B2 U+00B3, which have `Numeric_Type=Digit` and therefore also
satisfy `str.isdigit`, but are not in category `Nd`). -/
def isdigitLikeChar (c : Char) : Bool :=
  isDigitChar c || c == Char.ofNat 178 || c == Char.ofNat 179 || c == Char.ofNat 185

/-- `str.isdigit()`: non-empty and every character digit-like. -/
def pyIsdigit (cs : List Char) : Bool := !cs.isEmpty && cs.all isdigitLikeChar

/-- `int(s)` for a string that already passed `str.isdigit()`: succeeds only
when every character is an actual decimal digit (category `Nd`); a
digit-like character outside `Nd` (e.g. U+00B2) makes `int` raise
`ValueError`, modelled as `none`. -/
def pyIntParse (cs : List Char) : Option Int :=
  if !cs.isEmpty && cs.all isDigitChar then some (digitsToNat cs) else none

/-- `re.fullmatch(r"\d{lo,hi}", s)` as a Boolean. -/
def fullmatchDigits (lo hi : Nat) (cs : List Char) : Bool :=
  cs.all isDigitChar && decide (lo ≤ cs.length) && decide (cs.length ≤ hi)

/-! ## Exact rational model of `int(round(float(x) * mult))` -/

/-- Floor of a rational (for a reduced `q`, `num.ediv den` is floor division
since the denominator is positive). -/
def ratFloor (q : ℚ) : ℤ := q.num.ediv (q.den : ℤ)

/-- Python `round` to an integer: round-half-even, modelled exactly on `ℚ`
(CPython rounds the binary `float`; both agree on the integer-valued
products the engine computes here). -/
def pyRound (q : ℚ) : ℤ :=
  if q - (ratFloor q : ℚ) < 1 / 2 then ratFloor q
  else if 1 / 2 < q - (ratFloor q : ℚ) then ratFloor q + 1
  else if ratFloor q % 2 = 0 then ratFloor q else ratFloor q + 1

/-- Value of a captured numeral `\d+(\.\d+)?`: integer part plus fractional
digits, as `float(...)` reads it (modelled exactly over `ℚ`). -/
def ratOfDigits (ip : Nat) (frac : List Char) : ℚ :=
  (ip : ℚ) + (digitsToNat frac : ℚ) / ((10 : ℚ) ^ frac.length)

/-! ## Hand-compiled matchers for the extractor's regexes

Every matcher below works at one start position; `searchPos` supplies the
leftmost-search semantics of `re.search`.  Greedy character-class runs are
the only viable parses for these patterns (the character after a maximal
class run can never satisfy the next literal of the pattern), so no
backtracking is modelled. -/

/-- Apostrophe character (U+0027). -/
def apos : Char := Char.ofNat 39

/-- Local-part class `[a-zA-Z0-9_.+\-]` of the email regex. -/
def isEmailLocalChar (c : Char) : Bool :=
  c.isAlphanum || c == '_' || c == '.' || c == '+' || c == '-'

/-- Domain class `[a-zA-Z0-9\-]` of the email regex. -/
def isEmailDomainChar (c : Char) : Bool := c.isAlphanum || c == '-'

/-- Tail class `[a-zA-Z0-9\-.]` of the email regex. -/
def isEmailTailChar (c : Char) : Bool := c.isAlphanum || c == '-' || c == '.'

/-- One-position matcher for
`([a-zA-Z0-9_.+\-]+@[a-zA-Z0-9\-]+\.[a-zA-Z0-9\-.]+)`; returns the matched
text.  (`@` and the mandatory dot are outside the preceding classes, so the
maximal runs are forced.) -/
def emailMatchAt (cs : List Char) : Option (List Char) :=
  let a := cs.takeWhile isEmailLocalChar
  if a.isEmpty then none
  else
    match cs.drop a.length with
    | '@' :: rest =>
      let b := rest.takeWhile isEmailDomainChar
      if b.isEmpty then none
      else
        match rest.drop b.length with
        | '.' :: rest2 =>
          let t := rest2.takeWhile isEmailTailChar
          if t.isEmpty then none
          else some (a ++ '@' :: (b ++ '.' :: t))
        | _ => none
    | _ => none

/-- `re.search` of the email pattern. -/
def emailSearch (cs : List Char) : Option (List Char) := searchPos emailMatchAt cs

/-- `re.fullmatch` of the email pattern: the unique match starting at
position 0 must consume the whole string. -/
def emailFullmatchOk (cs : List Char) : Bool :=
  match emailMatchAt cs with
  | some m => m.length == cs.length
  | none => false

/-- Name-token tail class `[A-Za-z\-']` of the carrier-phrase regex. -/
def isNameTokenChar (c : Char) : Bool := c.isAlpha || c == '-' || c == apos

/-- One name token `[A-Za-z][A-Za-z\-']+` (at least two characters). -/
def nameTokenAt (cs : List Char) : Option (List Char) :=
  match cs with
  | [] => none
  | c :: rest =>
    if c.isAlpha then
      let tail := rest.takeWhile isNameTokenChar
      if tail.isEmpty then none else some (c :: tail)
    else none

/-- Greedy `(?:\s+token){0,k}` continuation of the captured name group; the
capture keeps the whitespace exactly as matched. -/
def moreNameTokens : Nat → List Char → List Char
  | 0, _ => []
  | k + 1, cs =>
    let sp := cs.takeWhile isSpaceChar
    if sp.isEmpty then []
    else
      let rest := cs.dropWhile isSpaceChar
      match nameTokenAt rest with
      | some t => sp ++ t ++ moreNameTokens k (rest.drop t.length)
      | none => []

/-- Expect a literal. -/
def expectLit (lit cs : List Char) : Option (List Char) :=
  if startsWithList lit cs then some (cs.drop lit.length) else none

/-- Expect `\s+` (at least one whitespace character). -/
def expectSpaces1 (cs : List Char) : Option (List Char) :=
  if (cs.takeWhile isSpaceChar).isEmpty then none else some (cs.dropWhile isSpaceChar)

/-- Carrier alternation `my\s+name\s+is|i\s*am|i'm|this\s+is` at one
position (alternatives are mutually exclusive at any position, so the
first-match choice equals Python's ordered alternation); returns the
remainder after the carrier. -/
def carrierAt (cs : List Char) : Option (List Char) :=
  match expectLit [ 'm', 'y' ] cs >>= expectSpaces1 >>=
        expectLit [ 'n', 'a', 'm', 'e' ] >>= expectSpaces1 >>=
        expectLit [ 'i', 's' ] with
  | some r => some r
  | none =>
    match expectLit [ 'i' ] cs >>= fun r => expectLit [ 'a', 'm' ] (r.dropWhile isSpaceChar) with
    | some r => some r
    | none =>
      match expectLit [ 'i', apos, 'm' ] cs with
      | some r => some r
      | none => expectLit [ 't', 'h', 'i', 's' ] cs >>= expectSpaces1 >>= expectLit [ 'i', 's' ]

/-- One-position matcher for the carrier-phrase name regex
`(?:my\s+name\s+is|i\s*am|i'm|this\s+is)\s+([A-Za-z][A-Za-z\-']+(?:\s+[A-Za-z][A-Za-z\-']+){0,3})`;
returns the captured group. -/
def namePhraseAt (cs : List Char) : Option (List Char) :=
  match carrierAt cs with
  | none => none
  | some rest =>
    match expectSpaces1 rest with
    | none => none
    | some rest2 =>
      match nameTokenAt rest2 with
      | none => none
      | some t => some (t ++ moreNameTokens 3 (rest2.drop t.length))

/-- `re.search` of the carrier-phrase name regex (run on the lowered
message, as in the source). -/
def namePhraseSearch (cs : List Char) : Option (List Char) := searchPos namePhraseAt cs

/-- `str.capitalize()`: first character uppercased, the rest lowered. -/
def capitalizeWord (w : List Char) : List Char :=
  match w with
  | [] => []
  | c :: rest => c.toUpper :: rest.map Char.toLower

/-- `" ".join(ws)`. -/
def joinSpace (ws : List (List Char)) : List Char := List.intercalate [ ' ' ] ws

/-- Bare-name token class `[A-Za-z\-'.]` (used by both bare-name
fullmatches). -/
def isNameShapeChar (c : Char) : Bool := c.isAlpha || c == '-' || c == apos || c == '.'

/-- One word of the bare-name shape `[A-Za-z][A-Za-z\-'.]+`. -/
def nameShapeWord (w : List Char) : Bool :=
  match w with
  | [] => false
  | c :: rest => c.isAlpha && !rest.isEmpty && rest.all isNameShapeChar

/-- `re.fullmatch(r"^[A-Za-z][A-Za-z\-'.]+(?:\s+[A-Za-z][A-Za-z\-'.]+){0,2}$", s)`:
since tokens contain no whitespace, the fullmatch holds exactly when the
whitespace-split words number 1–3 and each word matches one token. -/
def nameShapeFullOk (cs : List Char) : Bool :=
  let ws := pySplit cs
  decide (1 ≤ ws.length) && decide (ws.length ≤ 3) && ws.all nameShapeWord

/-- `w[0].isupper() and any(c.islower() for c in w[1:])` filtered on
`w[0].isalpha()` (one conjunct of both bare-name heuristics). -/
def titleCaseWordOk (w : List Char) : Bool :=
  match w with
  | [] => true
  | c :: rest => if c.isAlpha then c.isUpper && rest.any Char.isLower else true

/-- Money units of the `(\d+(?:\.\d+)?)\s*(lakh|lakhs|crore|crores)` regex.
The ordered alternation tries `lakh` before `lakhs`, so a `lakh` prefix is
what the engine sees; the multiplier test is `'lakh' in unit`. -/
inductive MoneyUnit
  | lakh
  | crore
  deriving DecidableEq, Repr

/-- The optional fraction `(?:\.\d+)?` after the integer digits: consumed
only when a digit follows the dot (also the only parse Python's
backtracking finds); returns the fraction digits and the remainder. -/
def fracSplit (rest : List Char) : List Char × List Char :=
  match rest with
  | '.' :: r2 =>
    if (digitRun r2).isEmpty then ([], rest)
    else (digitRun r2, r2.drop (digitRun r2).length)
  | _ => ([], rest)

/-- One-position matcher for `(\d+(?:\.\d+)?)\s*(lakh|lakhs|crore|crores)`:
maximal digit run, the optional fraction, `\s*`, then the unit literal. -/
def unitMatchAt (cs : List Char) : Option (Nat × List Char × MoneyUnit) :=
  if (digitRun cs).isEmpty then none
  else
    let fracRest := fracSplit (cs.drop (digitRun cs).length)
    let rest3 := fracRest.2.dropWhile isSpaceChar
    if startsWithList [ 'l', 'a', 'k', 'h' ] rest3 then
      some (digitsToNat (digitRun cs), fracRest.1, MoneyUnit.lakh)
    else if startsWithList [ 'c', 'r', 'o', 'r', 'e' ] rest3 then
      some (digitsToNat (digitRun cs), fracRest.1, MoneyUnit.crore)
    else none

/-- `re.search` of the unit-amount regex. -/
def unitSearch (cs : List Char) : Option (Nat × List Char × MoneyUnit) :=
  searchPos unitMatchAt cs

/-- `int(round(float(numeral) * multiplier))` for a unit match. -/
def unitAmount (ip : Nat) (frac : List Char) (u : MoneyUnit) : ℤ :=
  pyRound (ratOfDigits ip frac *
    (match u with
     | MoneyUnit.lakh => (100000 : ℚ)
     | MoneyUnit.crore => (10000000 : ℚ)))

/-- Lazy `.*?` followed by `\d{lo,hi}`: scan forward (never across a
newline, which `.` does not match) to the first position holding at least
`lo` consecutive digits; the greedy counted class then captures up to `hi`
of them. -/
def digitsAfterNoNewline (lo hi : Nat) : List Char → Option Nat
  | [] => none
  | c :: cs =>
    if decide (lo ≤ (digitRun (c :: cs)).length) then
      some (digitsToNat ((digitRun (c :: cs)).take hi))
    else if c == '\n' then none
    else digitsAfterNoNewline lo hi cs

/-- Search for `kw1.*?(\d{lo,hi})|kw2.*?(\d{lo,hi})|...`: at each position
the keyword literals are mutually exclusive (distinct first letters), and
if the matched keyword finds no digits the whole position fails, as in
Python's ordered alternation. -/
def keywordDigitSearch (kws : List (List Char)) (lo hi : Nat) : List Char → Option Nat
  | [] => none
  | c :: cs =>
    match kws.findSome? (fun kw => if startsWithList kw (c :: cs) then some kw else none) with
    | some kw =>
      match digitsAfterNoNewline lo hi ((c :: cs).drop kw.length) with
      | some n => some n
      | none => keywordDigitSearch kws lo hi cs
    | none => keywordDigitSearch kws lo hi cs

/-- One-position matcher for `(\d+)\s*(?:dependent|kid|child)` (the three
literals have distinct first letters). -/
def depMatchAt (cs : List Char) : Option Nat :=
  let ds := digitRun cs
  if ds.isEmpty then none
  else
    let rest := (cs.drop ds.length).dropWhile isSpaceChar
    if startsWithList [ 'd', 'e', 'p', 'e', 'n', 'd', 'e', 'n', 't' ] rest ||
       startsWithList [ 'k', 'i', 'd' ] rest ||
       startsWithList [ 'c', 'h', 'i', 'l', 'd' ] rest then
      some (digitsToNat ds)
    else none

/-- `re.search(r'(\d{10})', s)`: first position with ten consecutive digits. -/
def phoneSearch (cs : List Char) : Option (List Char) :=
  searchPos
    (fun s => if decide (10 ≤ (digitRun s).length) then some ((digitRun s).take 10) else none)
    cs

/-! ## `_extract_data_from_message` -/

/-- The partial slot map one extraction turn produces (`extracted` in the
source); an absent key is `none`. -/
structure Extracted where
  email : Option (List Char) := none
  full_name : Option (List Char) := none
  employment_status : Option (List Char) := none
  annual_income : Option ℤ := none
  loan_amount : Option ℤ := none
  credit_score : Option ℤ := none
  phone : Option (List Char) := none
  num_dependents : Option ℤ := none
  deriving DecidableEq, Repr

/-- Canonical employment strings. -/
def strSalaried : List Char := [ 's', 'a', 'l', 'a', 'r', 'i', 'e', 'd' ]

/-- `"self-employed"`. -/
def strSelfEmployed : List Char :=
  [ 's', 'e', 'l', 'f', '-', 'e', 'm', 'p', 'l', 'o', 'y', 'e', 'd' ]

/-- `"business"`. -/
def strBusiness : List Char := [ 'b', 'u', 's', 'i', 'n', 'e', 's', 's' ]

/-- `"employed"`. -/
def strEmployed : List Char := [ 'e', 'm', 'p', 'l', 'o', 'y', 'e', 'd' ]

/-- `"unemployed"`. -/
def strUnemployed : List Char := [ 'u', 'n', 'e', 'm', 'p', 'l', 'o', 'y', 'e', 'd' ]

/-- `"self"`. -/
def strSelf : List Char := [ 's', 'e', 'l', 'f' ]

/-- The reserved-word set of the extractor's bare-name heuristic
(line 1180 of `chat_routes.py`). -/
def loanKeywordsExtract : List (List Char) :=
  [ [ 'l', 'o', 'a', 'n' ], [ 'a', 'p', 'p', 'l', 'y' ],
    [ 'a', 'p', 'p', 'l', 'i', 'c', 'a', 't', 'i', 'o', 'n' ],
    [ 'a', 'm', 'o', 'u', 'n', 't' ], [ 'b', 'o', 'r', 'r', 'o', 'w' ],
    [ 'c', 'r', 'e', 'd', 'i', 't' ], [ 's', 'c', 'o', 'r', 'e' ],
    [ 'i', 'n', 'c', 'o', 'm', 'e' ], [ 's', 'a', 'l', 'a', 'r', 'y' ], strSalaried,
    strSelfEmployed, strBusiness ]

/-- Keyword literals of `income.*?(\d{4,8})|salary.*?(\d{4,8})|earn.*?(\d{4,8})`. -/
def kwIncomeList : List (List Char) :=
  [ [ 'i', 'n', 'c', 'o', 'm', 'e' ], [ 's', 'a', 'l', 'a', 'r', 'y' ],
    [ 'e', 'a', 'r', 'n' ] ]

/-- Keyword literals of `loan.*?(\d{4,8})|borrow.*?(\d{4,8})|need.*?(\d{4,8})`. -/
def kwLoanList : List (List Char) :=
  [ [ 'l', 'o', 'a', 'n' ], [ 'b', 'o', 'r', 'r', 'o', 'w' ],
    [ 'n', 'e', 'e', 'd' ] ]

/-- Keyword literals of `credit.*?(\d{3})|score.*?(\d{3})`. -/
def kwCreditList : List (List Char) :=
  [ [ 'c', 'r', 'e', 'd', 'i', 't' ], [ 's', 'c', 'o', 'r', 'e' ] ]

/-- Lines 1161–1167: email search on the raw message, else fullmatch on the
stripped message. -/
def stageEmail (message stripped : List Char) (e : Extracted) : Extracted :=
  match emailSearch message with
  | some m => { e with email := some m }
  | none => if emailFullmatchOk stripped then { e with email := some stripped } else e

/-- Lines 1169–1173: carrier-phrase name on the lowered message. -/
def stageNamePhrase (lowered : List Char) (e : Extracted) : Extracted :=
  match namePhraseSearch lowered with
  | some captured =>
    { e with full_name := some (joinSpace ((pySplit (pyStrip captured)).map capitalizeWord)) }
  | none => e

/-- Lines 1175–1177: exact employment-status match of the stripped, lowered
message against the enumerated set. -/
def stageEmploymentExact (stripped : List Char) (e : Extracted) : Extracted :=
  let s := pyLower stripped
  if s == strSalaried then { e with employment_status := some strSalaried }
  else if s == strSelfEmployed then { e with employment_status := some strSelfEmployed }
  else if s == strBusiness then { e with employment_status := some strBusiness }
  else e

/-- `p[0].upper() + p[1:] if len(p) > 1 else p.upper()` of line 1187 (the
tail is kept as typed, unlike `str.capitalize`). -/
def upperHeadWord (w : List Char) : List Char :=
  match w with
  | [] => []
  | [ c ] => [ c.toUpper ]
  | c :: rest => c.toUpper :: rest

/-- Lines 1178–1187: bare Title-Case 1–3 word message taken as a name when
no carrier phrase matched. -/
def stageNameBare (stripped : List Char) (e : Extracted) : Extracted :=
  if e.full_name.isNone then
    let words := pySplit stripped
    if decide (1 ≤ words.length) && decide (words.length ≤ 3) &&
       !(words.any (fun w => loanKeywordsExtract.contains (pyLower w))) &&
       words.all titleCaseWordOk && nameShapeFullOk stripped then
      { e with full_name := some (joinSpace (words.map upperHeadWord)) }
    else e
  else e

/-- Lines 1189–1209: income — unit amount first, else keyword-anchored 4–8
digit number, else a bare 5–8 digit message not equal to an already matched
loan amount. -/
def stageIncome (lowered stripped : List Char) (e : Extracted) : Extracted :=
  match unitSearch lowered with
  | some (ip, frac, u) => { e with annual_income := some (unitAmount ip frac u) }
  | none =>
    match keywordDigitSearch kwIncomeList 4 8 lowered with
    | some n => { e with annual_income := some (n : ℤ) }
    | none =>
      let notLoanDup : Bool :=
        match e.loan_amount with
        | none => true
        | some v => decide ((digitsToNat stripped : ℤ) ≠ v)
      if e.annual_income.isNone && fullmatchDigits 5 8 stripped && notLoanDup then
        { e with annual_income := some (digitsToNat stripped : ℤ) }
      else e

/-- Lines 1218–1231 (the `else` arm of the loan block): keyword-anchored 4–8
digit number, else a bare 5–8 digit message not equal to an already matched
income. -/
def stageLoanElse (lowered stripped : List Char) (e : Extracted) : Extracted :=
  match keywordDigitSearch kwLoanList 4 8 lowered with
  | some n => { e with loan_amount := some (n : ℤ) }
  | none =>
    let notIncomeDup : Bool :=
      match e.annual_income with
      | none => true
      | some v => decide ((digitsToNat stripped : ℤ) ≠ v)
    if e.loan_amount.isNone && fullmatchDigits 5 8 stripped && notIncomeDup then
      { e with loan_amount := some (digitsToNat stripped : ℤ) }
    else e

/-- Lines 1211–1231: loan amount — the unit amount fills the slot when it is
still empty, otherwise the keyword/bare-number arm runs. -/
def stageLoan (lowered stripped : List Char) (e : Extracted) : Extracted :=
  match unitSearch lowered with
  | some (ip, frac, u) =>
    if e.loan_amount.isNone then { e with loan_amount := some (unitAmount ip frac u) }
    else stageLoanElse lowered stripped e
  | none => stageLoanElse lowered stripped e

/-- Lines 1233–1239: 3-digit number after a credit keyword, kept when in
`[300, 850]` (the loop breaks only after a successful range check, and only
one alternation group is non-`None`). -/
def stageCredit (lowered : List Char) (e : Extracted) : Extracted :=
  match keywordDigitSearch kwCreditList 3 3 lowered with
  | some n =>
    if decide (300 ≤ n) && decide (n ≤ 850) then { e with credit_score := some (n : ℤ) }
    else e
  | none => e

/-- Lines 1241–1247: ten consecutive digits anywhere in the raw message,
else a fullmatch on the stripped message. -/
def stagePhone (message stripped : List Char) (e : Extracted) : Extracted :=
  match phoneSearch message with
  | some p => { e with phone := some p }
  | none => if fullmatchDigits 10 10 stripped then { e with phone := some stripped } else e

/-- Lines 1249–1255: substring employment detection.  The first branch fires
for every message containing `"employed"`, so the `self`+`employed` branch
is unreachable, exactly as in the source. -/
def stageEmploymentSub (lowered : List Char) (e : Extracted) : Extracted :=
  if containsList strEmployed lowered then { e with employment_status := some strEmployed }
  else if containsList strSelf lowered && containsList strEmployed lowered then
    { e with employment_status := some strSelfEmployed }
  else if containsList strUnemployed lowered then
    { e with employment_status := some strUnemployed }
  else e

/-- Lines 1257–1265: dependents — explicit `<N> dependent/kid/child` phrase,
else any bare `str.isdigit` message parsed with `int(...)` and kept when in
`[0, 20]`.  `int(...)` raising `ValueError` (a digit-like character outside
`Nd`) is the `none` result. -/
def stageDeps (lowered stripped : List Char) (e : Extracted) : Option Extracted :=
  match searchPos depMatchAt lowered with
  | some n => some { e with num_dependents := some (n : ℤ) }
  | none =>
    if pyIsdigit stripped then
      match pyIntParse stripped with
      | some num =>
        if decide (0 ≤ num) && decide (num ≤ 20) then
          some { e with num_dependents := some num }
        else some e
      | none => none
    else some e

/-- `_extract_data_from_message` (lines 1152–1267): the stage pipeline in
source order; `none` models the function raising. -/
def extract_data_from_message (message : List Char) : Option Extracted :=
  let lowered := pyLower message
  let stripped := pyStrip message
  stageDeps lowered stripped
    (stageEmploymentSub lowered
      (stagePhone message stripped
        (stageCredit lowered
          (stageLoan lowered stripped
            (stageIncome lowered stripped
              (stageNameBare stripped
                (stageEmploymentExact stripped
                  (stageNamePhrase lowered
                    (stageEmail message stripped {})))))))))

/-! ## The step-by-step form flow of `send_message` (lines 141–247) -/

/-- `if k not in collected or collected[k] != v: collected[k] = v` — the net
effect per key is: a key extracted this turn overwrites, an absent key is
left alone (assigning an equal value is a no-op). -/
def overrideOpt {α : Type} (new old : Option α) : Option α :=
  match new with
  | some v => some v
  | none => old

/-- The merge loop of lines 197–201, fieldwise. -/
def mergeCollected (c e : Extracted) : Extracted :=
  { email := overrideOpt e.email c.email
    full_name := overrideOpt e.full_name c.full_name
    employment_status := overrideOpt e.employment_status c.employment_status
    annual_income := overrideOpt e.annual_income c.annual_income
    loan_amount := overrideOpt e.loan_amount c.loan_amount
    credit_score := overrideOpt e.credit_score c.credit_score
    phone := overrideOpt e.phone c.phone
    num_dependents := overrideOpt e.num_dependents c.num_dependents }

/-- Lines 197–201 over the ordered user messages (history oldest-first plus
the current message): extract each and merge; an extraction that raises
aborts the request (`none`). -/
def collect_from_messages (msgs : List (List Char)) : Option Extracted :=
  msgs.foldl
    (fun acc m =>
      match acc with
      | none => none
      | some c =>
        match extract_data_from_message m with
        | none => none
        | some e => some (mergeCollected c e))
    (some ({} : Extracted))

/-- A Python value stored in the `collected` dict (the engine stores
strings, ints and the `True` placeholders promoted from history). -/
inductive PyVal
  | int (n : ℤ)
  | str (s : List Char)
  | bool (b : Bool)
  deriving DecidableEq, Repr

/-- Python truthiness of `collected.get(key)`: missing, `0`, `""` and
`False` are falsy. -/
def truthy : Option PyVal → Bool
  | none => false
  | some (PyVal.int n) => decide (n ≠ 0)
  | some (PyVal.str s) => !s.isEmpty
  | some (PyVal.bool b) => b

/-- Field keys of the schema. -/
def kFullName : List Char := "full_name".toList

/-- `"email"`. -/
def kEmail : List Char := "email".toList

/-- `"phone"`. -/
def kPhone : List Char := "phone".toList

/-- `"annual_income"`. -/
def kAnnualIncome : List Char := "annual_income".toList

/-- `"loan_amount"`. -/
def kLoanAmount : List Char := "loan_amount".toList

/-- `"loan_term_months"`. -/
def kLoanTermMonths : List Char := "loan_term_months".toList

/-- `"loan_purpose"`. -/
def kLoanPurpose : List Char := "loan_purpose".toList

/-- `"num_dependents"`. -/
def kNumDependents : List Char := "num_dependents".toList

/-- `"employment_status"`. -/
def kEmploymentStatus : List Char := "employment_status".toList

/-- `"credit_score"`. -/
def kCreditScore : List Char := "credit_score".toList

/-- `collected.get(key)` for the dict built by the merge loop: the extractor
produces only its eight keys, so `loan_term_months` and `loan_purpose` (and
any other key) are always absent. -/
def lookupCollected (c : Extracted) (key : List Char) : Option PyVal :=
  if key == kFullName then c.full_name.map PyVal.str
  else if key == kEmail then c.email.map PyVal.str
  else if key == kPhone then c.phone.map PyVal.str
  else if key == kAnnualIncome then c.annual_income.map PyVal.int
  else if key == kLoanAmount then c.loan_amount.map PyVal.int
  else if key == kNumDependents then c.num_dependents.map PyVal.int
  else if key == kEmploymentStatus then c.employment_status.map PyVal.str
  else if key == kCreditScore then c.credit_score.map PyVal.int
  else none

/-- Session questions of lines 143–154 (apostrophes spelled via `apos`). -/
def qFullName : List Char := "What".toList ++ apos :: "s your full name?".toList

/-- Email question. -/
def qEmail : List Char := "What".toList ++ apos :: "s your email address?".toList

/-- Phone question. -/
def qPhone : List Char := "What".toList ++ apos :: "s your phone number?".toList

/-- Annual-income question. -/
def qAnnualIncome : List Char := "What".toList ++ apos :: "s your annual income (in INR)?".toList

/-- Loan-amount question. -/
def qLoanAmount : List Char := "What loan amount are you looking for (INR)?".toList

/-- Loan-term question. -/
def qLoanTerm : List Char := "What loan term do you want (in months)?".toList

/-- Loan-purpose question. -/
def qLoanPurpose : List Char :=
  "What is the purpose of your loan? (e.g., home, car, education, business, personal)".toList

/-- Dependents question. -/
def qNumDependents : List Char := "How many dependents do you have?".toList

/-- Employment question of the session flow. -/
def qEmploymentSession : List Char :=
  "What".toList ++ apos :: "s your employment status? (salaried, self-employed, business)".toList

/-- Credit-score question. -/
def qCreditScore : List Char := "What".toList ++ apos :: "s your current credit score?".toList

/-- `session_fields` of lines 143–154: the fixed asking order of the
step-by-step form flow. -/
def session_fields : List (List Char × List Char) :=
  [ (kFullName, qFullName), (kEmail, qEmail), (kPhone, qPhone),
    (kAnnualIncome, qAnnualIncome), (kLoanAmount, qLoanAmount),
    (kLoanTermMonths, qLoanTerm), (kLoanPurpose, qLoanPurpose),
    (kNumDependents, qNumDependents), (kEmploymentStatus, qEmploymentSession),
    (kCreditScore, qCreditScore) ]

/-- Lines 204–205: the first session field whose collected value is missing
or falsy is asked next; `none` means every field is collected and the
document-upload prompt is returned instead. -/
def next_missing_field (c : Extracted) : Option (List Char × List Char) :=
  session_fields.find? (fun kv => !truthy (lookupCollected c kv.1))

/-! ## `LoanApplication` rows and the required-field checks -/

/-- The `LoanApplication` columns the engine reads and writes (nullable
columns are `Option`; the numeric chat-path values are integral, so the
`Float` columns are modelled on `ℤ` and the score on `ℚ`). -/
structure Application where
  full_name : Option (List Char) := none
  email : Option (List Char) := none
  phone : Option (List Char) := none
  annual_income : Option ℤ := none
  credit_score : Option ℤ := none
  loan_amount : Option ℤ := none
  loan_term_months : Option ℤ := none
  num_dependents : Option ℤ := none
  employment_status : Option (List Char) := none
  document_verified : Bool := false
  eligibility_score : Option ℚ := none
  eligibility_status : Option (List Char) := none
  deriving DecidableEq, Repr

/-- `value is None or (isinstance(value, (int, float)) and value == 0)`
for a numeric column: `None` and `0` count as missing. -/
def intPresent (v : Option ℤ) : Bool :=
  match v with
  | none => false
  | some x => decide (x ≠ 0)

/-- `_has_required_fields` (lines 1270–1284): the six required columns are
non-`None`, with numeric zero counting as missing (a string value — even
the empty string — passes the check). -/
def has_required_fields (a : Application) : Bool :=
  intPresent a.annual_income && intPresent a.credit_score && intPresent a.loan_amount &&
  intPresent a.loan_term_months && intPresent a.num_dependents && a.employment_status.isSome

/-- Display names used by `_get_missing_fields`. -/
def dAnnualIncome : List Char := "annual income".toList

/-- `"credit score"`. -/
def dCreditScore : List Char := "credit score".toList

/-- `"loan amount"`. -/
def dLoanAmount : List Char := "loan amount".toList

/-- `"loan term (months)"`. -/
def dLoanTerm : List Char := "loan term (months)".toList

/-- `"number of dependents"`. -/
def dNumDependents : List Char := "number of dependents".toList

/-- `"employment status"`. -/
def dEmploymentStatus : List Char := "employment status".toList

/-- `_get_missing_fields` (lines 1287–1306): display names of the required
columns still missing, in the fixed dict order. -/
def get_missing_fields (a : Application) : List (List Char) :=
  (if intPresent a.annual_income then [] else [ dAnnualIncome ]) ++
  (if intPresent a.credit_score then [] else [ dCreditScore ]) ++
  (if intPresent a.loan_amount then [] else [ dLoanAmount ]) ++
  (if intPresent a.loan_term_months then [] else [ dLoanTerm ]) ++
  (if intPresent a.num_dependents then [] else [ dNumDependents ]) ++
  (if a.employment_status.isSome then [] else [ dEmploymentStatus ])

/-! ## `_analyze_conversation`: intent and action (lines 537–589)

The stateful tail of `_analyze_conversation` (history lookups) is modelled
separately: the keyed/text-sniff inference of lines 593–621 is
`context_inference` below, and the later mutation sites
(line 658 and the response composer) never assign `predict_eligibility`,
so the intent/action chain here is the only source of that action. -/

/-- Intent labels. -/
def iGreeting : List Char := "greeting".toList

/-- `"providing_info"`. -/
def iProvidingInfo : List Char := "providing_info".toList

/-- `"loan_inquiry"`. -/
def iLoanInquiry : List Char := "loan_inquiry".toList

/-- `"document_upload"`. -/
def iDocumentUpload : List Char := "document_upload".toList

/-- `"eligibility_check"`. -/
def iEligibilityCheck : List Char := "eligibility_check".toList

/-- `"verification"`. -/
def iVerification : List Char := "verification".toList

/-- `"general_inquiry"`. -/
def iGeneralInquiry : List Char := "general_inquiry".toList

/-- Action tags. -/
def aCollectDetails : List Char := "collect_details".toList

/-- `"request_document"`. -/
def aRequestDocument : List Char := "request_document".toList

/-- `"predict_eligibility"`. -/
def aPredictEligibility : List Char := "predict_eligibility".toList

/-- `"send_otp"`. -/
def aSendOtp : List Char := "send_otp".toList

/-- Keyword lists of the intent chain. -/
def kwGreeting : List (List Char) :=
  [ "hello".toList, "hi".toList, "hey".toList, "start".toList, "begin".toList ]

/-- Personal-information keywords. -/
def kwPersonal : List (List Char) :=
  [ "name".toList, "age".toList, "income".toList, "salary".toList ]

/-- Loan-inquiry keywords. -/
def kwLoanIntent : List (List Char) :=
  [ "loan".toList, "amount".toList, "borrow".toList, "need money".toList ]

/-- Document keywords. -/
def kwDocument : List (List Char) :=
  [ "document".toList, "upload".toList, "file".toList, "bank statement".toList, "id".toList ]

/-- Eligibility keywords. -/
def kwEligibility : List (List Char) :=
  [ "eligible".toList, "check".toList, "qualify".toList, "eligibility".toList ]

/-- Verification keywords. -/
def kwVerification : List (List Char) :=
  [ "verify".toList, "otp".toList, "code".toList, "email".toList ]

/-- `any(word in message_lower for word in ...)`. -/
def anyKw (kws : List (List Char)) (ml : List Char) : Bool :=
  kws.any (fun k => containsList k ml)

/-- The reserved-word set of the classifier's bare-name lambda (line 559). -/
def loanKeywordsAnalyze : List (List Char) :=
  [ "loan".toList, "apply".toList, "application".toList, "amount".toList,
    "borrow".toList, "credit".toList, "score".toList, "income".toList,
    "salary".toList ]

/-- The bare-name lambda of lines 557–562 applied to the stripped message
(1–3 words, no loan keyword, Title-Case for alphabetic-initial words, and
the name-shape fullmatch). -/
def bare_name_heuristic (s : List Char) : Bool :=
  let ws := pySplit s
  decide (1 ≤ ws.length) && decide (ws.length ≤ 3) &&
  !(ws.any (fun w => loanKeywordsAnalyze.contains (pyLower w))) &&
  ws.all titleCaseWordOk && nameShapeFullOk s

/-- The intent/action chain of `_analyze_conversation` (lines 544–589).
`predict_eligibility` is assigned in exactly one place: the eligibility
branch, guarded only by `application and _has_required_fields(application)`
— the document-verification state is never consulted. -/
def analyze_intent_action (message : List Char) (application : Option Application) :
    List Char × Option (List Char) :=
  let ml := pyLower message
  if anyKw kwGreeting ml then (iGreeting, some aCollectDetails)
  else if anyKw kwPersonal ml then (iProvidingInfo, some aCollectDetails)
  else if bare_name_heuristic (pyStrip message) then (iProvidingInfo, some aCollectDetails)
  else if anyKw kwLoanIntent ml then (iLoanInquiry, some aCollectDetails)
  else if anyKw kwDocument ml then (iDocumentUpload, some aRequestDocument)
  else if anyKw kwEligibility ml then
    (iEligibilityCheck,
      match application with
      | some a => if has_required_fields a then some aPredictEligibility else some aCollectDetails
      | none => some aCollectDetails)
  else if anyKw kwVerification ml then (iVerification, some aSendOtp)
  else (iGeneralInquiry, none)

/-- Line 286 of `send_message`: the auto-trigger that invokes
`_perform_eligibility_check` when no action ran, an application exists, all
required fields are present, and the intent is `providing_info` — again
with no document-verification condition. -/
def auto_trigger_eligibility (actionResultEmpty : Bool) (application : Option Application)
    (intent : List Char) : Bool :=
  actionResultEmpty &&
  (match application with
   | some a => has_required_fields a
   | none => false) &&
  intent == iProvidingInfo

/-! ## The document gate of `verify_application_document`
(`loan_routes.py` lines 345–352) -/

/-- `{"aadhaar", "pan", "kyc"}`. -/
def identityGroup : List (List Char) := [ "aadhaar".toList, "pan".toList, "kyc".toList ]

/-- `{"bank_statement", "salary_slip"}`. -/
def financialGroup : List (List Char) := [ "bank_statement".toList, "salary_slip".toList ]

/-- `app.document_verified = bool(has_identity and has_financial)`: one
uploaded identity document and one uploaded financial document. -/
def document_verified_rule (uploadedIds : List (List Char)) : Bool :=
  uploadedIds.any (fun d => identityGroup.contains d) &&
  uploadedIds.any (fun d => financialGroup.contains d)

/-! ## The context-aware inference of lines 593–621 and
`_infer_from_last_question` (lines 692–722) -/

/-- The three slots this inference can produce. -/
structure Inferred where
  annual_income : Option ℤ := none
  loan_amount : Option ℤ := none
  credit_score : Option ℤ := none
  deriving DecidableEq, Repr

/-- `if not inferred` — the dict is empty. -/
def Inferred.isEmptyDict (i : Inferred) : Bool :=
  i.annual_income.isNone && i.loan_amount.isNone && i.credit_score.isNone

/-- `re.sub(r"\D", "", msg)`: every digit of the message, concatenated. -/
def allDigitsOf (cs : List Char) : List Char := cs.filter isDigitChar

/-- Lines 601–616: parse the (stripped, lowered) message as a value for the
explicitly recorded `last_question` key. -/
def keyed_inference (lastQKey : List Char) (msg : List Char) : Inferred :=
  let digits := allDigitsOf msg
  let unit := unitSearch msg
  if lastQKey == kAnnualIncome then
    match unit with
    | some (ip, frac, u) => { annual_income := some (unitAmount ip frac u) }
    | none =>
      if !digits.isEmpty && decide (4 ≤ digits.length) && decide (digits.length ≤ 8) then
        { annual_income := some (digitsToNat digits : ℤ) }
      else {}
  else if lastQKey == kLoanAmount then
    match unit with
    | some (ip, frac, u) => { loan_amount := some (unitAmount ip frac u) }
    | none =>
      if !digits.isEmpty && decide (4 ≤ digits.length) && decide (digits.length ≤ 8) then
        { loan_amount := some (digitsToNat digits : ℤ) }
      else {}
  else if lastQKey == kCreditScore then
    if !digits.isEmpty && digits.length == 3 && decide (300 ≤ digitsToNat digits) &&
       decide (digitsToNat digits ≤ 900) then
      { credit_score := some (digitsToNat digits : ℤ) }
    else {}
  else {}

/-- `"annual income"`. -/
def tAnnualIncome : List Char := "annual income".toList

/-- `"loan amount"`. -/
def tLoanAmount : List Char := "loan amount".toList

/-- `"credit score"`. -/
def tCreditScore : List Char := "credit score".toList

/-- `_infer_from_last_question` (lines 692–722): sniff the literal text of
the last assistant question.  The three keyword blocks are sequential `if`s
with early returns inside, so a block whose parses fail falls through to
the next block. -/
def infer_from_last_question (user_message assistant_prompt : List Char) : Inferred :=
  if assistant_prompt.isEmpty then {}
  else
    let msg := pyLower (pyStrip user_message)
    let unit := unitSearch msg
    let digits := allDigitsOf msg
    let promptLower := pyLower assistant_prompt
    let tryIncome : Option Inferred :=
      if containsList tAnnualIncome promptLower then
        match unit with
        | some (ip, frac, u) => some { annual_income := some (unitAmount ip frac u) }
        | none =>
          if !digits.isEmpty && decide (4 ≤ digits.length) && decide (digits.length ≤ 8) then
            some { annual_income := some (digitsToNat digits : ℤ) }
          else none
      else none
    match tryIncome with
    | some r => r
    | none =>
      let tryLoan : Option Inferred :=
        if containsList tLoanAmount promptLower then
          match unit with
          | some (ip, frac, u) => some { loan_amount := some (unitAmount ip frac u) }
          | none =>
            if !digits.isEmpty && decide (4 ≤ digits.length) && decide (digits.length ≤ 8) then
              some { loan_amount := some (digitsToNat digits : ℤ) }
            else none
        else none
      match tryLoan with
      | some r => r
      | none =>
        if containsList tCreditScore promptLower then
          if !digits.isEmpty && digits.length == 3 && decide (300 ≤ digitsToNat digits) &&
             decide (digitsToNat digits ≤ 900) then
            { credit_score := some (digitsToNat digits : ℤ) }
          else {}
        else {}

/-- Lines 593–621 as a pure function of the fetched state: the keyed parse
runs when a `last_question` key was recorded (the empty string models "no
key"), and whenever it produced nothing — key absent or keyed parse failed
— the text-sniff fallback runs. -/
def context_inference (lastQKey message lastPrompt : List Char) : Inferred :=
  let msg := pyLower (pyStrip message)
  let keyed := if lastQKey.isEmpty then {} else keyed_inference lastQKey msg
  if keyed.isEmptyDict then infer_from_last_question message lastPrompt else keyed

/-! ## `_fallback_single_question` (lines 922–972) and the general-inquiry
branch of `_generate_conversational_response` (lines 888–917) -/

/-- Fallback employment question (the wording of line 939). -/
def qEmploymentFallback : List Char :=
  "What".toList ++ apos :: "s your employment status (salaried, self-employed, business)?".toList

/-- The preferred asking order of `_fallback_single_question`
(lines 933–941). -/
def fallback_order : List (List Char × List Char) :=
  [ (kFullName, qFullName), (kEmail, qEmail), (kAnnualIncome, qAnnualIncome),
    (kCreditScore, qCreditScore), (kLoanAmount, qLoanAmount),
    (kEmploymentStatus, qEmploymentFallback), (kNumDependents, qNumDependents) ]

/-- General-inquiry intro of lines 927–930 (note the trailing space of the
f-string prefix). -/
def helpIntro : List Char := "I can answer your loan questions and help you apply. ".toList

/-- Default closer of line 972. -/
def qDefaultNext : List Char := "How can I help you proceed with your application?".toList

/-- `display_to_key` (lines 949–956) with the dict-`get` default. -/
def display_to_key (d : List Char) : List Char :=
  if d == dAnnualIncome then kAnnualIncome
  else if d == dCreditScore then kCreditScore
  else if d == dLoanAmount then kLoanAmount
  else if d == dLoanTerm then kLoanTermMonths
  else if d == dNumDependents then kNumDependents
  else if d == dEmploymentStatus then kEmploymentStatus
  else d

/-- The question loop of lines 967–972: the first field of the preferred
order that is among the missing keys, else the default closer. -/
def fallback_question_of (missingKeys2 : List (List Char)) : List Char :=
  match fallback_order.find? (fun kv => missingKeys2.contains kv.1) with
  | some kv => kv.2
  | none => qDefaultNext

/-- `_fallback_single_question` (lines 922–972): deterministic one-question
fallback.  `collected` is the turn's `collected_data` dict (arbitrary
key→value map, since promoted history entries can be `True`). -/
def fallback_single_question (intent : List Char)
    (collected : List Char → Option PyVal) (application : Option Application) : List Char :=
  let pre := if intent == iGeneralInquiry then helpIntro else []
  let missingKeys : List (List Char) :=
    match application with
    | some a => (get_missing_fields a).map display_to_key
    | none => (fallback_order.map Prod.fst).filter (fun k => !truthy (collected k))
  let missingKeys2 : List (List Char) :=
    match application with
    | some _ => missingKeys
    | none =>
      if truthy (collected kEmail) && !truthy (collected kFullName) then
        missingKeys.filter (fun k => !(k == kFullName))
      else missingKeys
  pre ++ fallback_question_of missingKeys2

/-- The provider-error prefix checked at line 916 (lowercased). -/
def troubleFlag : List Char :=
  "sorry, i".toList ++ apos :: "m having trouble responding right now".toList

/-- The general-inquiry branch of `_generate_conversational_response`
(lines 888–917): if the collaborator's health check fails, or its reply is
falsy (`None` is modelled as the empty string), whitespace-only, or starts
with the error flag, the deterministic fallback is returned; otherwise the
collaborator's text is returned as is. -/
def general_reply (healthy : Bool) (llmReply : List Char) (intent : List Char)
    (collected : List Char → Option PyVal) (application : Option Application) : List Char :=
  if !healthy then fallback_single_question intent collected application
  else if llmReply.isEmpty || (pyStrip llmReply).isEmpty ||
          startsWithList troubleFlag (pyLower llmReply) then
    fallback_single_question intent collected application
  else llmReply

/-! ## `_collect_applicant_details` update path (lines 1034–1039) -/

/-- `for field, value in extracted_data.items(): setattr(application, field, value)`:
every key the extractor produced overwrites the corresponding column
unconditionally; keys absent from the extraction leave the column alone. -/
def update_application_fields (application : Application) (e : Extracted) : Application :=
  { application with
    email := overrideOpt e.email application.email
    full_name := overrideOpt e.full_name application.full_name
    phone := overrideOpt e.phone application.phone
    annual_income := overrideOpt e.annual_income application.annual_income
    loan_amount := overrideOpt e.loan_amount application.loan_amount
    credit_score := overrideOpt e.credit_score application.credit_score
    num_dependents := overrideOpt e.num_dependents application.num_dependents
    employment_status := overrideOpt e.employment_status application.employment_status }

/-! ## `_perform_eligibility_check` (lines 1049–1092) -/

/-- The feature dict sent to the prediction collaborator. -/
structure ApplicantData where
  annual_income : Option ℤ
  credit_score : Option ℤ
  loan_amount : Option ℤ
  loan_term_months : Option ℤ
  num_dependents : Option ℤ
  employment_status : Option (List Char)
  deriving DecidableEq, Repr

/-- The prediction collaborator's result. -/
structure Prediction where
  eligibility_score : ℚ
  eligibility_status : List Char
  recommendations : List (List Char)
  deriving DecidableEq, Repr

/-- Counters for the two side effects of one eligibility check — the
prediction call and the notification email (the standard effect-trace
embedding of the collaborator calls). -/
structure EffectState where
  predictionCalls : ℕ
  notificationsSent : ℕ
  deriving DecidableEq, Repr

/-- `"eligible"`. -/
def strEligible : List Char := "eligible".toList

/-- `"not eligible"`. -/
def strNotEligible : List Char := "not eligible".toList

/-- Result payload of `_perform_eligibility_check`. -/
inductive CheckOutcome
  | err (msg : List Char)
  | ok (score : ℚ) (status : List Char) (scorePct : ℚ) (statusText : List Char)
       (recs : List (List Char)) (notificationSent : Bool)
  deriving DecidableEq, Repr

/-- `round(x, 1)` (Python half-even, modelled exactly on `ℚ`). -/
def roundTo1 (q : ℚ) : ℚ := (pyRound (q * 10) : ℚ) / 10

/-- `_perform_eligibility_check` (lines 1049–1092): with no application it
returns the error dict and performs nothing; otherwise it always calls the
prediction collaborator once, writes the score and status back to the
application, and always sends one notification email — there is no
already-evaluated guard of any kind. -/
def perform_eligibility_check (predict : ApplicantData → Prediction)
    (application : Option Application) (s : EffectState) :
    Option Application × EffectState × CheckOutcome :=
  match application with
  | none => (none, s, CheckOutcome.err "No application found".toList)
  | some app =>
    let data : ApplicantData :=
      { annual_income := app.annual_income, credit_score := app.credit_score,
        loan_amount := app.loan_amount, loan_term_months := app.loan_term_months,
        num_dependents := app.num_dependents, employment_status := app.employment_status }
    let p := predict data
    let app2 : Application :=
      { app with
        eligibility_score := some p.eligibility_score
        eligibility_status := some p.eligibility_status }
    let s2 : EffectState :=
      { predictionCalls := s.predictionCalls + 1, notificationsSent := s.notificationsSent + 1 }
    let statusText := if p.eligibility_status == strEligible then strEligible else strNotEligible
    (some app2, s2,
      CheckOutcome.ok p.eligibility_score p.eligibility_status
        (roundTo1 (p.eligibility_score * 100)) statusText p.recommendations true)

/-! ## Concrete inputs used by the theorems -/

/-- An application that already holds two dependents. -/
def depsTwoApp : Application :=
  { full_name := some "Rohan Gupta".toList, email := some "rohan@example.com".toList,
    annual_income := some 500000, credit_score := some 720, loan_amount := some 200000,
    loan_term_months := some 12, num_dependents := some 2,
    employment_status := some strSalaried }

/-- The message `"0"`. -/
def zeroMsg : List Char := "0".toList

/-- The message `"2 kids"`. -/
def twoKidsMsg : List Char := "2 kids".toList

/-- What the extractor produces for `"0"`. -/
def zeroDepsExtract : Extracted := { num_dependents := some 0 }

/-- A constant prediction collaborator. -/
def predConst : ApplicantData → Prediction :=
  fun _ =>
    { eligibility_score := (4 : ℚ) / 5, eligibility_status := strEligible,
      recommendations := [] }

/-- An application with every required field present and documents not yet
verified. -/
def appFull : Application :=
  { full_name := some "Asha Rao".toList, email := some "asha@example.com".toList,
    annual_income := some 900000, credit_score := some 710, loan_amount := some 300000,
    loan_term_months := some 24, num_dependents := some 1,
    employment_status := some strSalaried, document_verified := false }

/-- `"check eligibility"`. -/
def msgCheckEligibility : List Char := "check eligibility".toList

/-- `"am I eligible"`. -/
def msgAmIEligible : List Char := "am I eligible".toList

/-- The §8 scenario input sequence. -/
def c4_messages : List (List Char) :=
  [ "hi".toList, "Rohan Gupta".toList, "rohan@example.com".toList, "9876543210".toList,
    "75000".toList, "500000".toList, "12".toList, "2".toList, "salaried".toList,
    "720".toList ]

/-- The collected map the flow actually reaches on that sequence. -/
def c4_collected : Extracted :=
  { email := some "rohan@example.com".toList, full_name := some "Rohan Gupta".toList,
    employment_status := some strSalaried, annual_income := some 500000,
    phone := some "9876543210".toList, num_dependents := some 2 }

/-- The message `"12"`. -/
def msgBare12 : List Char := "12".toList

/-- The superscript-two character U+00B2 as a one-character message. -/
def superscriptTwo : List Char := [ Char.ofNat 178 ]

/-! ## Claim theorems -/

/-- Claim C1 (counterexample): the non-clobber invariant fails.  The
application holds `num_dependents = 2`; the turn `"0"` extracts
`num_dependents = 0`, and both write paths — the `setattr` update of
`_collect_applicant_details` and the merge loop of `send_message` — replace
the stored `2` by the zero placeholder instead of keeping it. -/
theorem C1_counterexample :
    depsTwoApp.num_dependents = some 2 ∧
    extract_data_from_message zeroMsg = some zeroDepsExtract ∧
    (update_application_fields depsTwoApp zeroDepsExtract).num_dependents = some 0 ∧
    collect_from_messages [ twoKidsMsg, zeroMsg ] = some zeroDepsExtract := by
  decide

/-- Claim C1 (amended): a stored slot value is left unchanged exactly when
the new turn's extraction omits the key; any extracted value — zero
included — overwrites the stored value unconditionally (last-writer-wins
with no validity guard), on both the application-update path and the
collected-map merge path. -/
theorem C1_amended_nonclobber :
    ∀ (a : Application) (e : Extracted),
      (e.num_dependents = none →
        (update_application_fields a e).num_dependents = a.num_dependents) ∧
      (∀ v, e.num_dependents = some v →
        (update_application_fields a e).num_dependents = some v) ∧
      (∀ c : Extracted, e.annual_income = none →
        (mergeCollected c e).annual_income = c.annual_income) ∧
      (∀ (c : Extracted) (v : ℤ), e.annual_income = some v →
        (mergeCollected c e).annual_income = some v) := by
  intro a e
  refine ⟨fun h => ?_, fun v h => ?_, fun c h => ?_, fun c v h => ?_⟩ <;>
    simp [update_application_fields, mergeCollected, overrideOpt, h]

/-- Witness for C1: the amended rule applied at concrete inputs — an empty
extraction preserves the stored `2`, and the zero extraction overwrites it. -/
theorem C1_witness :
    (update_application_fields depsTwoApp ({} : Extracted)).num_dependents = some 2 ∧
    (update_application_fields depsTwoApp zeroDepsExtract).num_dependents = some 0 := by
  exact ⟨(C1_amended_nonclobber depsTwoApp {}).1 rfl,
         (C1_amended_nonclobber depsTwoApp zeroDepsExtract).2.1 0 rfl⟩

/-- Claim C2 (counterexample): invoking the eligibility check twice in
immediate succession performs two prediction calls and two notification
emails, not one of each — there is no idempotence guard. -/
theorem C2_counterexample :
    (perform_eligibility_check predConst
        (perform_eligibility_check predConst (some appFull)
          { predictionCalls := 0, notificationsSent := 0 }).1
        (perform_eligibility_check predConst (some appFull)
          { predictionCalls := 0, notificationsSent := 0 }).2.1).2.1 =
      { predictionCalls := 2, notificationsSent := 2 } := by
  decide

/-- Claim C2 (amended): every invocation of the eligibility check on an
existing application performs exactly one prediction call and one
notification email; invoking it twice in succession therefore performs
exactly two of each. -/
theorem C2_amended_effect_counts :
    ∀ (predict : ApplicantData → Prediction) (a : Application) (s : EffectState),
      (perform_eligibility_check predict (some a) s).2.1.predictionCalls =
        s.predictionCalls + 1 ∧
      (perform_eligibility_check predict (some a) s).2.1.notificationsSent =
        s.notificationsSent + 1 ∧
      (perform_eligibility_check predict
          (perform_eligibility_check predict (some a) s).1
          (perform_eligibility_check predict (some a) s).2.1).2.1.predictionCalls =
        s.predictionCalls + 2 ∧
      (perform_eligibility_check predict
          (perform_eligibility_check predict (some a) s).1
          (perform_eligibility_check predict (some a) s).2.1).2.1.notificationsSent =
        s.notificationsSent + 2 := by
  intro predict a s
  exact ⟨rfl, rfl, rfl, rfl⟩

/-- Claim C4 (evaluation at the failing input): the §8 input sequence does
not end with all ten keys collected.  The flow reaches a collected map with
six keys — `"500000"` overwrote `annual_income` (so `loan_amount` stays
empty), `"12"` and then `"2"` both landed in `num_dependents`, `"720"`
matched nothing, and no rule can ever produce `loan_term_months` or
`loan_purpose` — and the resolver asks for the loan amount instead of
reporting zero missing fields. -/
theorem C4_scenario_eval :
    collect_from_messages c4_messages = some c4_collected ∧
    c4_collected.loan_amount = none ∧
    c4_collected.credit_score = none ∧
    lookupCollected c4_collected kLoanTermMonths = none ∧
    lookupCollected c4_collected kLoanPurpose = none ∧
    next_missing_field c4_collected = some (kLoanAmount, qLoanAmount) := by
  decide

/-- Claim C5 (evaluation at the failing input): `_extract_data_from_message`
takes no conversation context at all, and a bare integer in `[0, 20]` is
assigned to `num_dependents` unconditionally — here the message `"12"`
with no preceding dependents question. -/
theorem C5_bare_integer_eval :
    extract_data_from_message msgBare12 = some ({ num_dependents := some 12 } : Extracted) := by
  decide

/-- Claim C6 (evaluation at the failing input): the exact enumerated match
stores `"self-employed"`, but the later substring pass overwrites it with
`"employed"` (its `self`+`employed` branch is unreachable), so the message
`"self-employed"` does not map to its own enumerated value; `"salaried"`
and `"business"` survive. -/
theorem C6_employment_eval :
    extract_data_from_message strSelfEmployed =
      some ({ employment_status := some strEmployed } : Extracted) ∧
    extract_data_from_message strSalaried =
      some ({ employment_status := some strSalaried } : Extracted) ∧
    extract_data_from_message strBusiness =
      some ({ employment_status := some strBusiness } : Extracted) ∧
    strEmployed ≠ strSelfEmployed := by
  decide

/-- Claim C9 (evaluation at the failing input): extraction is not total.
The one-character message U+00B2 satisfies `str.isdigit` (so the dependents
branch calls `int(...)`) but is not a decimal digit, so `int` raises
`ValueError` and the extractor propagates it; an ordinary no-match message
simply omits every key. -/
theorem C9_raise_eval :
    pyIsdigit superscriptTwo = true ∧
    pyIntParse superscriptTwo = none ∧
    extract_data_from_message superscriptTwo = none ∧
    extract_data_from_message "hello!!!".toList = some ({} : Extracted) := by
  decide

/-- Claim C3 (counterexample): with every required field valid but the
document gate unsatisfied (`document_verified = false`, nothing uploaded),
an eligibility-keyword turn gets action `predict_eligibility`, and the
`providing_info` auto-trigger of line 286 also fires — the eligibility
trigger is invoked before document verification. -/
theorem C3_counterexample :
    appFull.document_verified = false ∧
    document_verified_rule [] = false ∧
    (analyze_intent_action msgCheckEligibility (some appFull)).2 = some aPredictEligibility ∧
    auto_trigger_eligibility true (some appFull) iProvidingInfo = true := by
  decide

/-- Claim C3 (amended): the eligibility action is gated only on field
completeness — whenever the classifier emits `predict_eligibility` an
application exists and `_has_required_fields` holds, and no document
condition is consulted; the two-group document gate exists only in the
document-verification route, where it sets `document_verified` exactly when
one identity-group and one financial-group document have been uploaded. -/
theorem C3_amended_gate :
    (∀ (message : List Char) (app : Option Application),
        (analyze_intent_action message app).2 = some aPredictEligibility →
        ∃ a, app = some a ∧ has_required_fields a = true) ∧
    (∀ uploadedIds : List (List Char),
        document_verified_rule uploadedIds = true ↔
          ((∃ d ∈ uploadedIds, d ∈ identityGroup) ∧
           (∃ d ∈ uploadedIds, d ∈ financialGroup))) := by
  constructor
  · intro message app h
    cases app with
    | none =>
      simp only [analyze_intent_action] at h
      split_ifs at h <;> simp_all <;> exact absurd h (by decide)
    | some a =>
      simp only [analyze_intent_action] at h
      split_ifs at h with h1 h2 h3 h4 h5 h6 h7 h8 <;>
        first
        | exact ⟨a, rfl, by assumption⟩
        | exact absurd h (by decide)
  · intro ids
    simp [document_verified_rule, List.any_eq_true, List.elem_iff]

/-- Witness for C3: the amended gate applied at concrete inputs — a
predict-action turn on a complete application, and the document rule
satisfied by one aadhaar plus one salary slip. -/
theorem C3_witness :
    (∃ a, (some appFull : Option Application) = some a ∧ has_required_fields a = true) ∧
    document_verified_rule [ "aadhaar".toList, "salary_slip".toList ] = true := by
  constructor
  · exact C3_amended_gate.1 msgAmIEligible (some appFull) (by decide)
  · exact (C3_amended_gate.2 [ "aadhaar".toList, "salary_slip".toList ]).mpr
      ⟨⟨"aadhaar".toList, by decide, by decide⟩, ⟨"salary_slip".toList, by decide, by decide⟩⟩

/-- The utterance `"750"`. -/
def msg750 : List Char := "750".toList

/-- Claim C7 (counterexample): the text-sniff heuristic is not reserved for
turns without a recorded key.  With `last_question_key = "loan_amount"` and
utterance `"750"`, the keyed parse yields nothing (3 digits is not a valid
loan amount), and the engine then consults the last-question text anyway:
against a credit-score prompt the turn produces `credit_score = 750` — the
utterance was not parsed strictly as a value for the recorded key. -/
theorem C7_counterexample :
    keyed_inference kLoanAmount (pyLower (pyStrip msg750)) = ({} : Inferred) ∧
    context_inference kLoanAmount msg750 qCreditScore =
      ({ credit_score := some 750 } : Inferred) := by
  decide

/-- Claim C7 (amended): the disambiguator is two-tier with the keyed parse
tried first and authoritative whenever it produces a value (the sniff is
then not consulted); the sniff fallback runs whenever the keyed tier
produced nothing — no key recorded, or a key recorded whose parse failed.
In particular `last_question_key = "credit_score"` with utterance `"750"`
yields `credit_score = 750` whatever the prompt text. -/
theorem C7_amended_two_tier :
    (∀ lastPrompt : List Char,
        context_inference kCreditScore msg750 lastPrompt =
          ({ credit_score := some 750 } : Inferred)) ∧
    (∀ (lastQKey message lastPrompt : List Char),
        lastQKey.isEmpty = false →
        (keyed_inference lastQKey (pyLower (pyStrip message))).isEmptyDict = false →
        context_inference lastQKey message lastPrompt =
          keyed_inference lastQKey (pyLower (pyStrip message))) := by
  constructor
  · intro lastPrompt
    rfl
  · intro lastQKey message lastPrompt hk h
    cases lastQKey with
    | nil => exact absurd hk (by decide)
    | cons c ks =>
      simp only [context_inference, List.isEmpty, Bool.false_eq_true, if_false]
      rw [h]
      simp

/-- Witness for C7: the amended rule applied at concrete inputs — the
credit-score scenario against an arbitrary concrete prompt, and an
annual-income keyed parse that succeeds and is returned untouched. -/
theorem C7_witness :
    context_inference kCreditScore msg750 qAnnualIncome =
      ({ credit_score := some 750 } : Inferred) ∧
    context_inference kAnnualIncome "75000".toList qCreditScore =
      ({ annual_income := some 75000 } : Inferred) := by
  refine ⟨C7_amended_two_tier.1 qAnnualIncome, ?_⟩
  exact (C7_amended_two_tier.2 kAnnualIncome "75000".toList qCreditScore (by decide)
    (by decide)).trans (by decide)

/-- Whatever the missing keys are, the selected question is one of the
seven fixed field questions or the default closer. -/
theorem fallback_question_of_mem (mk : List (List Char)) :
    fallback_question_of mk ∈ fallback_order.map Prod.snd ++ [ qDefaultNext ] := by
  unfold fallback_question_of
  cases hf : fallback_order.find? (fun kv => mk.contains kv.1) with
  | none => simp
  | some kv =>
    have hm := List.mem_of_find?_eq_some hf
    simp only [List.mem_append, List.mem_map]
    exact Or.inl ⟨kv, hm, rfl⟩

/-- Every fallback reply is the intent prefix followed by one of the fixed
template questions. -/
theorem fallback_single_question_shape (intent : List Char)
    (collected : List Char → Option PyVal) (app : Option Application) :
    ∃ q ∈ fallback_order.map Prod.snd ++ [ qDefaultNext ],
      fallback_single_question intent collected app =
        (if intent == iGeneralInquiry then helpIntro else []) ++ q := by
  exact ⟨_, fallback_question_of_mem _, rfl⟩

/-- Claim C10: on a general-inquiry turn, whenever the generation
collaborator is unavailable (health check false) or its reply is empty /
whitespace-only / flagged with the provider-error prefix, the composed
reply is exactly the deterministic single-next-missing-field fallback, and
that reply is one of the fixed template strings (the intro plus one of the
seven field questions or the default closer) — so no third-party failure
text can be part of it. -/
theorem C10_general_fallback :
    ∀ (healthy : Bool) (llmReply : List Char) (collected : List Char → Option PyVal)
      (app : Option Application),
      (healthy = false ∨ (pyStrip llmReply).isEmpty = true ∨
        startsWithList troubleFlag (pyLower llmReply) = true) →
      general_reply healthy llmReply iGeneralInquiry collected app =
        fallback_single_question iGeneralInquiry collected app ∧
      ∃ q ∈ fallback_order.map Prod.snd ++ [ qDefaultNext ],
        general_reply healthy llmReply iGeneralInquiry collected app = helpIntro ++ q := by
  intro healthy llm collected app hd
  have h1 : general_reply healthy llm iGeneralInquiry collected app =
      fallback_single_question iGeneralInquiry collected app := by
    rcases hd with h | h | h <;> cases healthy <;> simp [general_reply, h]
  refine ⟨h1, ?_⟩
  obtain ⟨q, hq, he⟩ := fallback_single_question_shape iGeneralInquiry collected app
  exact ⟨q, hq, h1.trans he⟩

/-- Witness for C10: a concrete unavailable-collaborator turn with nothing
collected yet falls back to the full-name question from the template set. -/
theorem C10_witness :
    general_reply false "provider exploded".toList iGeneralInquiry
        (fun _ => none) none = helpIntro ++ qFullName := by
  have h := C10_general_fallback false "provider exploded".toList (fun _ => none) none
    (Or.inl rfl)
  exact h.1.trans (by decide)

/-! ## Supporting lemmas for the unit-amount theorem (C8) -/

/-- `stageEmail` never touches the amount fields. -/
theorem stageEmail_annual (m s : List Char) (e : Extracted) :
    (stageEmail m s e).annual_income = e.annual_income := by
  dsimp only [stageEmail]
  repeat' split
  all_goals rfl

/-- `stageEmail` never touches `loan_amount`. -/
theorem stageEmail_loan (m s : List Char) (e : Extracted) :
    (stageEmail m s e).loan_amount = e.loan_amount := by
  dsimp only [stageEmail]
  repeat' split
  all_goals rfl

/-- `stageNamePhrase` never touches the amount fields. -/
theorem stageNamePhrase_annual (l : List Char) (e : Extracted) :
    (stageNamePhrase l e).annual_income = e.annual_income := by
  dsimp only [stageNamePhrase]
  repeat' split
  all_goals rfl

/-- `stageNamePhrase` never touches `loan_amount`. -/
theorem stageNamePhrase_loan (l : List Char) (e : Extracted) :
    (stageNamePhrase l e).loan_amount = e.loan_amount := by
  dsimp only [stageNamePhrase]
  repeat' split
  all_goals rfl

/-- `stageEmploymentExact` never touches the amount fields. -/
theorem stageEmploymentExact_annual (s : List Char) (e : Extracted) :
    (stageEmploymentExact s e).annual_income = e.annual_income := by
  dsimp only [stageEmploymentExact]
  repeat' split
  all_goals rfl

/-- `stageEmploymentExact` never touches `loan_amount`. -/
theorem stageEmploymentExact_loan (s : List Char) (e : Extracted) :
    (stageEmploymentExact s e).loan_amount = e.loan_amount := by
  dsimp only [stageEmploymentExact]
  repeat' split
  all_goals rfl

/-- `stageNameBare` never touches the amount fields. -/
theorem stageNameBare_annual (s : List Char) (e : Extracted) :
    (stageNameBare s e).annual_income = e.annual_income := by
  dsimp only [stageNameBare]
  repeat' split
  all_goals rfl

/-- `stageNameBare` never touches `loan_amount`. -/
theorem stageNameBare_loan (s : List Char) (e : Extracted) :
    (stageNameBare s e).loan_amount = e.loan_amount := by
  dsimp only [stageNameBare]
  repeat' split
  all_goals rfl

/-- `stageCredit` never touches the amount fields. -/
theorem stageCredit_annual (l : List Char) (e : Extracted) :
    (stageCredit l e).annual_income = e.annual_income := by
  dsimp only [stageCredit]
  repeat' split
  all_goals rfl

/-- `stageCredit` never touches `loan_amount`. -/
theorem stageCredit_loan (l : List Char) (e : Extracted) :
    (stageCredit l e).loan_amount = e.loan_amount := by
  dsimp only [stageCredit]
  repeat' split
  all_goals rfl

/-- `stagePhone` never touches the amount fields. -/
theorem stagePhone_annual (m s : List Char) (e : Extracted) :
    (stagePhone m s e).annual_income = e.annual_income := by
  dsimp only [stagePhone]
  repeat' split
  all_goals rfl

/-- `stagePhone` never touches `loan_amount`. -/
theorem stagePhone_loan (m s : List Char) (e : Extracted) :
    (stagePhone m s e).loan_amount = e.loan_amount := by
  dsimp only [stagePhone]
  repeat' split
  all_goals rfl

/-- `stageEmploymentSub` never touches the amount fields. -/
theorem stageEmploymentSub_annual (l : List Char) (e : Extracted) :
    (stageEmploymentSub l e).annual_income = e.annual_income := by
  dsimp only [stageEmploymentSub]
  repeat' split
  all_goals rfl

/-- `stageEmploymentSub` never touches `loan_amount`. -/
theorem stageEmploymentSub_loan (l : List Char) (e : Extracted) :
    (stageEmploymentSub l e).loan_amount = e.loan_amount := by
  dsimp only [stageEmploymentSub]
  repeat' split
  all_goals rfl

/-- A unit match makes the income branch take the unit arm. -/
theorem stageIncome_unit (lowered stripped : List Char) (e : Extracted)
    (ip : Nat) (frac : List Char) (u : MoneyUnit)
    (h : unitSearch lowered = some (ip, frac, u)) :
    stageIncome lowered stripped e =
      { e with annual_income := some (unitAmount ip frac u) } := by
  unfold stageIncome
  rw [h]

/-- A unit match with the loan slot still empty makes the loan branch take
the unit arm. -/
theorem stageLoan_unit (lowered stripped : List Char) (e : Extracted)
    (ip : Nat) (frac : List Char) (u : MoneyUnit)
    (h : unitSearch lowered = some (ip, frac, u)) (hl : e.loan_amount = none) :
    stageLoan lowered stripped e =
      { e with loan_amount := some (unitAmount ip frac u) } := by
  unfold stageLoan
  rw [h]
  simp [hl]

/-- When the stripped message is not `isdigit`, the dependents stage cannot
raise, and it never touches the amount fields. -/
theorem stageDeps_amounts (lowered stripped : List Char) (e : Extracted)
    (h : pyIsdigit stripped = false) :
    ∃ e', stageDeps lowered stripped e = some e' ∧
      e'.annual_income = e.annual_income ∧ e'.loan_amount = e.loan_amount := by
  unfold stageDeps
  cases searchPos depMatchAt lowered with
  | some n => exact ⟨_, rfl, rfl, rfl⟩
  | none =>
    simp only [h, Bool.false_eq_true, if_false]
    exact ⟨e, rfl, rfl, rfl⟩

/-- A successful leftmost search succeeds at some suffix of the input. -/
theorem searchPos_subset {α : Type} (f : List Char → Option α) :
    ∀ (cs : List Char) (r : α), searchPos f cs = some r →
      ∃ ds : List Char, ds ⊆ cs ∧ f ds = some r := by
  intro cs
  induction cs with
  | nil => intro r h; simp [searchPos] at h
  | cons c cs ih =>
    intro r h
    unfold searchPos at h
    cases hf : f (c :: cs) with
    | some v =>
      rw [hf] at h
      exact ⟨c :: cs, fun a ha => ha, by rw [hf]; exact h⟩
    | none =>
      rw [hf] at h
      obtain ⟨ds, hsub, hf'⟩ := ih r h
      exact ⟨ds, fun a ha => List.mem_cons_of_mem c (hsub ha), hf'⟩

/-- The second component of the optional-fraction split is a suffix of its
input. -/
theorem fracSplit_snd_subset (rest : List Char) : (fracSplit rest).2 ⊆ rest := by
  unfold fracSplit
  split
  · split
    · exact fun a ha => ha
    · exact fun a ha => List.mem_cons_of_mem _ (List.drop_subset _ _ ha)
  · exact fun a ha => ha

/-- `dropWhile` only removes elements. -/
theorem dropWhile_subset_loc (p : Char → Bool) (l : List Char) :
    l.dropWhile p ⊆ l := by
  induction l with
  | nil => exact fun a ha => ha
  | cons c cs ih =>
    rw [List.dropWhile_cons]
    split
    · exact fun a ha => List.mem_cons_of_mem c (ih ha)
    · exact fun a ha => ha

/-- The head of a matched literal occurs in the text. -/
theorem startsWith_head_mem (c : Char) (lit rest : List Char)
    (h : startsWithList (c :: lit) rest = true) : c ∈ rest := by
  cases rest with
  | nil => simp [startsWithList] at h
  | cons r rs =>
    simp only [startsWithList, Bool.and_eq_true, beq_iff_eq] at h
    exact h.1 ▸ List.mem_cons_self r rs

/-- A lakh unit match at a position implies an `'l'` in that text. -/
theorem unitMatchAt_lakh_mem (cs : List Char) (ip : Nat) (frac : List Char)
    (h : unitMatchAt cs = some (ip, frac, MoneyUnit.lakh)) : 'l' ∈ cs := by
  dsimp only [unitMatchAt] at h
  split at h
  · exact absurd h (by simp)
  · split at h
    · have hl := startsWith_head_mem 'l' _ _ (by assumption)
      have h1 : 'l' ∈ (fracSplit (cs.drop (digitRun cs).length)).2 :=
        dropWhile_subset_loc _ _ hl
      have h2 : 'l' ∈ cs.drop (digitRun cs).length := fracSplit_snd_subset _ h1
      exact List.drop_subset _ _ h2
    · split at h
      · exact absurd h (by simp)
      · exact absurd h (by simp)

/-- A lakh unit match anywhere implies an `'l'` in the searched text. -/
theorem unitSearch_lakh_mem (cs : List Char) (ip : Nat) (frac : List Char)
    (h : unitSearch cs = some (ip, frac, MoneyUnit.lakh)) : 'l' ∈ cs := by
  obtain ⟨ds, hsub, hf⟩ := searchPos_subset _ cs _ h
  exact hsub (unitMatchAt_lakh_mem ds ip frac hf)

/-- A character that lowercases to `'l'` is neither whitespace nor
digit-like (both classes are finite character sets unchanged by
lowercasing). -/
theorem toLower_l_classes (c : Char) (h : Char.toLower c = 'l') :
    isSpaceChar c = false ∧ isdigitLikeChar c = false := by
  constructor
  · by_contra hs
    rw [Bool.not_eq_false] at hs
    have hmem : c ∈ [ ' ', '\t', '\n', '\r', Char.ofNat 11, Char.ofNat 12 ] := by
      simp only [isSpaceChar, Bool.or_eq_true, beq_iff_eq] at hs
      simp only [List.mem_cons, List.not_mem_nil, or_false]
      tauto
    fin_cases hmem <;> exact absurd h (by decide)
  · by_contra hs
    rw [Bool.not_eq_false] at hs
    have hmem : c ∈ [ '0', '1', '2', '3', '4', '5', '6', '7', '8', '9',
        Char.ofNat 178, Char.ofNat 179, Char.ofNat 185 ] := by
      simp only [isdigitLikeChar, isDigitChar, Bool.or_eq_true, beq_iff_eq] at hs
      simp only [List.mem_cons, List.not_mem_nil, or_false]
      tauto
    fin_cases hmem <;> exact absurd h (by decide)

/-- Membership survives `dropWhile` when the predicate rejects the element. -/
theorem mem_dropWhile_of_neg {p : Char → Bool} {c : Char} :
    ∀ {l : List Char}, c ∈ l → p c = false → c ∈ l.dropWhile p := by
  intro l hc hp
  induction l with
  | nil => simp at hc
  | cons a l ih =>
    by_cases ha : p a = true
    · rw [List.dropWhile_cons_of_pos ha]
      rcases List.mem_cons.mp hc with rfl | hm
      · rw [ha] at hp; cases hp
      · exact ih hm
    · rw [List.dropWhile_cons_of_neg (by simpa using ha)]
      exact hc

/-- A non-whitespace character of the message survives `str.strip`. -/
theorem mem_pyStrip {c : Char} {cs : List Char} (hc : c ∈ cs)
    (hsp : isSpaceChar c = false) : c ∈ pyStrip cs := by
  unfold pyStrip
  rw [List.mem_reverse]
  exact mem_dropWhile_of_neg (List.mem_reverse.mpr (mem_dropWhile_of_neg hc hsp)) hsp

/-- If the lowered message contains an `'l'`, the stripped message cannot
satisfy `str.isdigit` — so the dependents stage cannot raise. -/
theorem pyIsdigit_strip_false_of_lower_l (msg : List Char)
    (h : 'l' ∈ pyLower msg) : pyIsdigit (pyStrip msg) = false := by
  obtain ⟨c, hc, hlc⟩ := List.mem_map.mp h
  obtain ⟨hsp, hdl⟩ := toLower_l_classes c hlc
  have hmem : c ∈ pyStrip msg := mem_pyStrip hc hsp
  unfold pyIsdigit
  cases hall : (pyStrip msg).all isdigitLikeChar with
  | true =>
    have := List.all_eq_true.mp hall c hmem
    rw [hdl] at this
    cases this
  | false => rw [Bool.and_false]

/-- `ratFloor` of an integer-valued rational is that integer. -/
theorem ratFloor_natCast (n : ℕ) : ratFloor (n : ℚ) = n := by
  unfold ratFloor
  rw [Rat.num_natCast, Rat.den_natCast]
  rcases (n : ℤ) with p | p <;> simp [Int.ediv]

/-- Python `round` is the identity on integer-valued rationals. -/
theorem pyRound_natCast (n : ℕ) : pyRound (n : ℚ) = n := by
  unfold pyRound
  rw [ratFloor_natCast]
  have h0 : (n : ℚ) - ((n : ℤ) : ℚ) = 0 := by push_cast; ring
  rw [h0]
  norm_num

/-- `int(round(float(k) * 100000))` for an integer numeral `k` with the
`lakh` unit is exactly `k * 100000`. -/
theorem unitAmount_int_lakh (k : ℕ) :
    unitAmount k [] MoneyUnit.lakh = (k : ℤ) * 100000 := by
  unfold unitAmount ratOfDigits
  have h1 : ((k : ℚ) + (digitsToNat [] : ℚ) / (10 : ℚ) ^ (List.length ([] : List Char))) *
      (100000 : ℚ) = ((k * 100000 : ℕ) : ℚ) := by
    simp only [digitsToNat, List.foldl_nil, List.length_nil, pow_zero, Nat.cast_zero]
    push_cast
    ring
  rw [h1, pyRound_natCast]
  push_cast
  ring

/-- The §8 loan-inquiry scenario message. -/
def msgFiveLakh : List Char := "I need a loan of 5 lakh".toList

/-- Claim C8: for every message whose leftmost unit match is an integer
numeral `k` with a `lakh` unit, extraction succeeds and assigns
`k × 100000` to the amount slots (the unit arm writes it to
`annual_income`, and the loan arm — whose slot is still empty — writes the
same amount to `loan_amount`); in particular `"I need a loan of 5 lakh"`
classifies as `loan_inquiry` and extracts `loan_amount = 500000`. -/
theorem C8_unit_lakh_extraction :
    (∀ (message : List Char) (k : ℕ),
        unitSearch (pyLower message) = some (k, [], MoneyUnit.lakh) →
        ∃ e : Extracted, extract_data_from_message message = some e ∧
          e.annual_income = some ((k : ℤ) * 100000) ∧
          e.loan_amount = some ((k : ℤ) * 100000)) ∧
    (analyze_intent_action msgFiveLakh none).1 = iLoanInquiry ∧
    (∃ e : Extracted, extract_data_from_message msgFiveLakh = some e ∧
        e.loan_amount = some 500000 ∧ e.annual_income = some 500000) := by
  have hU : ∀ (message : List Char) (k : ℕ),
      unitSearch (pyLower message) = some (k, [], MoneyUnit.lakh) →
      ∃ e : Extracted, extract_data_from_message message = some e ∧
        e.annual_income = some ((k : ℤ) * 100000) ∧
        e.loan_amount = some ((k : ℤ) * 100000) := ?_
  case refine_2 =>
    refine ⟨hU, by decide, ?_⟩
    obtain ⟨e, he, ha, hl⟩ := hU msgFiveLakh 5 (by decide)
    exact ⟨e, he, by rw [hl]; norm_num, by rw [ha]; norm_num⟩
  intro message k h
  have hdig : pyIsdigit (pyStrip message) = false :=
    pyIsdigit_strip_false_of_lower_l message (unitSearch_lakh_mem _ k [] h)
  -- the record reaching the income stage, with both amount slots empty
  have h4a :
      (stageNameBare (pyStrip message)
        (stageEmploymentExact (pyStrip message)
          (stageNamePhrase (pyLower message)
            (stageEmail message (pyStrip message) ({} : Extracted))))).annual_income = none := by
    rw [stageNameBare_annual, stageEmploymentExact_annual, stageNamePhrase_annual,
      stageEmail_annual]
  have h4l :
      (stageNameBare (pyStrip message)
        (stageEmploymentExact (pyStrip message)
          (stageNamePhrase (pyLower message)
            (stageEmail message (pyStrip message) ({} : Extracted))))).loan_amount = none := by
    rw [stageNameBare_loan, stageEmploymentExact_loan, stageNamePhrase_loan, stageEmail_loan]
  -- income and loan stages both take the unit arm
  have h5 := stageIncome_unit (pyLower message) (pyStrip message)
    (stageNameBare (pyStrip message)
      (stageEmploymentExact (pyStrip message)
        (stageNamePhrase (pyLower message)
          (stageEmail message (pyStrip message) ({} : Extracted))))) k [] MoneyUnit.lakh h
  have h6 := stageLoan_unit (pyLower message) (pyStrip message)
    ({ (stageNameBare (pyStrip message)
        (stageEmploymentExact (pyStrip message)
          (stageNamePhrase (pyLower message)
            (stageEmail message (pyStrip message) ({} : Extracted))))) with
      annual_income := some (unitAmount k [] MoneyUnit.lakh) }) k [] MoneyUnit.lakh h h4l
  -- the trailing stages preserve both amounts, and deps cannot raise
  obtain ⟨efin, hdeps, hda, hdl⟩ := stageDeps_amounts (pyLower message) (pyStrip message)
    (stageEmploymentSub (pyLower message)
      (stagePhone message (pyStrip message)
        (stageCredit (pyLower message)
          (stageLoan (pyLower message) (pyStrip message)
            (stageIncome (pyLower message) (pyStrip message)
              (stageNameBare (pyStrip message)
                (stageEmploymentExact (pyStrip message)
                  (stageNamePhrase (pyLower message)
                    (stageEmail message (pyStrip message) ({} : Extracted)))))))))) hdig
  refine ⟨efin, hdeps, ?_, ?_⟩
  · rw [hda, stageEmploymentSub_annual, stagePhone_annual, stageCredit_annual, h5, h6,
      unitAmount_int_lakh]
  · rw [hdl, stageEmploymentSub_loan, stagePhone_loan, stageCredit_loan, h5, h6,
      unitAmount_int_lakh]

/-- Witness for C8: the universal rule applied at the message `"2 lakh"`,
whose unit match is the integer numeral 2. -/
theorem C8_witness :
    ∃ e : Extracted, extract_data_from_message "2 lakh".toList = some e ∧
      e.annual_income = some ((2 : ℤ) * 100000) ∧
      e.loan_amount = some ((2 : ℤ) * 100000) := by
  exact C8_unit_lakh_extraction.1 "2 lakh".toList 2 (by decide)

end LoanChat
